import Mathlib

/-!
Shallow embedding of tiny-mongo (src/index.ts): a typed wrapper around the
mongodb 3.x node driver offering a collection factory with default-merging
and post-mutation hooks.  Documents are embedded as association lists of
JavaScript values, the driver as an explicit in-memory state, and each
wrapper operation as a pure state-passing function mirroring the source
line by line.
-/

namespace TinyMongo

/-- A JavaScript field value.  `undef` models the value `undefined` stored as
an own property (distinct from the property being absent); `vnull` models
`null`. -/
inductive Value where
  | undef : Value
  | vnull : Value
  | vbool : Bool → Value
  | vint : Int → Value
  | vstr : String → Value
  deriving DecidableEq

/-- A JavaScript object: its own properties in insertion order. -/
abbrev Doc := List (String × Value)

/-- Whether `k` is an own property of the object. -/
def hasKey (d : Doc) (k : String) : Bool :=
  d.any (fun p => p.1 == k)

/-- Property lookup: the value of the first entry for `k`, if any. -/
def getKey (d : Doc) (k : String) : Option Value :=
  (d.find? (fun p => p.1 == k)).map Prod.snd

/-- JavaScript property assignment: overwrite an existing entry for `k` in
place, otherwise append the new property at the end. -/
def setKey : Doc → String → Value → Doc
  | [], k, v => [(k, v)]
  | p :: t, k, v => if p.1 == k then (k, v) :: t else p :: setKey t k v

/-- Object spread of `b` onto `a`: start from `a` and assign every own
property of `b` in order — including properties whose value is `undefined`,
since spreading copies every own key. -/
def spread (a b : Doc) : Doc :=
  b.foldl (fun acc p => setKey acc p.1 p.2) a

/-- A JavaScript object never holds the same key twice. -/
def keysNodup (d : Doc) : Prop :=
  (d.map Prod.fst).Nodup

instance (d : Doc) : Decidable (keysNodup d) := by
  unfold keysNodup; infer_instance

/-- Lines 41-44 and 63-66 of src/index.ts: `defaults ? \x7b...defaults,
...input\x7d : input`. -/
def mergeDefaults (defaults : Option Doc) (input : Doc) : Doc :=
  match defaults with
  | some d => spread d input
  | none => input

/-- A persisted document: the database-assigned identifier plus the fields. -/
structure StoredDoc where
  _id : Nat
  fields : Doc
  deriving DecidableEq

/-- The in-memory model of one driver collection: the next identifier to
assign, the stored documents in insertion order, and a log of the driver
commands issued so far. -/
structure DB where
  nextId : Nat
  docs : List StoredDoc
  log : List String
  deriving DecidableEq

/-- A filter is passed through to the driver opaquely; the model driver only
ever evaluates it on a stored document. -/
abbrev Query := StoredDoc → Bool

/-- Query-by-example filter as in the README: every listed field must equal
the given value. -/
def eqQuery (q : Doc) : Query :=
  fun d => q.all (fun p => getKey d.fields p.1 == some p.2)

/-! ## Model of the mongodb 3.x driver calls the wrapper issues -/

/-- Driver insertOne response: `ops` is the array of inserted documents (or
absent), `ok` the acknowledgement flag `result.result.ok`. -/
structure InsertOneResult where
  ops : Option (List StoredDoc)
  ok : Bool
  deriving DecidableEq

/-- Driver insertOne: assigns the next identifier, appends the document, and
reports it back in `ops` with `ok` set. -/
def dbInsertOne (db : DB) (d : Doc) : InsertOneResult × DB :=
  let nd : StoredDoc := ⟨db.nextId, d⟩
  (⟨some [nd], true⟩, ⟨db.nextId + 1, db.docs ++ [nd], db.log ++ ["insertOne"]⟩)

/-- Identifier assignment for a bulk insert: the i-th document gets
identifier `startId + i`. -/
def assignIds (startId : Nat) (ds : List Doc) : List StoredDoc :=
  ds.enum.map (fun p => ⟨startId + p.1, p.2⟩)

/-- Driver insertMany: appends the documents with sequential identifiers and
reports `insertedIds` in insertion order. -/
def dbInsertMany (db : DB) (ds : List Doc) : List Nat × DB :=
  let nds := assignIds db.nextId ds
  (nds.map StoredDoc._id,
   ⟨db.nextId + ds.length, db.docs ++ nds, db.log ++ ["insertMany"]⟩)

/-- Apply a $set update to the first document matching the filter. -/
def updateFirst : List StoredDoc → Query → Doc → List StoredDoc
  | [], _, _ => []
  | d :: t, q, u =>
    if q d then ⟨d._id, spread d.fields u⟩ :: t else d :: updateFirst t q u

/-- Remove the first document matching the filter. -/
def removeFirst : List StoredDoc → Query → List StoredDoc
  | [], _ => []
  | d :: t, q => if q d then t else d :: removeFirst t q

/-- Driver findOneAndUpdate with a $set update and default options.  In the
3.x driver the default is returnOriginal: true, so `value` is the matched
document BEFORE the update; the stored document does get the $set fields
applied. -/
def dbFindOneAndUpdate (db : DB) (q : Query) (u : Doc) : Option StoredDoc × DB :=
  match db.docs.find? q with
  | none => (none, ⟨db.nextId, db.docs, db.log ++ ["findOneAndUpdate"]⟩)
  | some d =>
    (some d, ⟨db.nextId, updateFirst db.docs q u, db.log ++ ["findOneAndUpdate"]⟩)

/-- Driver findOneAndDelete: `value` is the removed document, if any. -/
def dbFindOneAndDelete (db : DB) (q : Query) : Option StoredDoc × DB :=
  match db.docs.find? q with
  | none => (none, ⟨db.nextId, db.docs, db.log ++ ["findOneAndDelete"]⟩)
  | some d =>
    (some d, ⟨db.nextId, removeFirst db.docs q, db.log ++ ["findOneAndDelete"]⟩)

/-- What the dynamically typed findOne call can hand back before the wrapper
normalizes it: a document, `null` (the 3.x driver's miss result), or
`undefined`. -/
inductive FindRaw where
  | undef : FindRaw
  | nullv : FindRaw
  | doc : StoredDoc → FindRaw
  deriving DecidableEq

/-- JavaScript truthiness of a findOne result: objects are truthy, `null`
and `undefined` are falsy. -/
def jsTruthy : FindRaw → Bool
  | FindRaw.doc _ => true
  | _ => false

/-- Driver findOne: the first matching document, or `null`. -/
def dbFindOne (db : DB) (q : Query) : FindRaw × DB :=
  match db.docs.find? q with
  | some d => (FindRaw.doc d, ⟨db.nextId, db.docs, db.log ++ ["findOne"]⟩)
  | none => (FindRaw.nullv, ⟨db.nextId, db.docs, db.log ++ ["findOne"]⟩)

/-- The number of stored documents the filter matches. -/
def countMatching (db : DB) (q : Query) : Nat :=
  (db.docs.filter (fun d => q d)).length

/-- Driver updateMany with a $set update: applies the update to every match
and reports `matchedCount`, the number of documents the filter matched. -/
def dbUpdateMany (db : DB) (q : Query) (u : Doc) : Nat × DB :=
  (countMatching db q,
   ⟨db.nextId,
    db.docs.map (fun d => if q d then ⟨d._id, spread d.fields u⟩ else d),
    db.log ++ ["updateMany"]⟩)

/-- Driver deleteMany: removes every match and reports `deletedCount`. -/
def dbDeleteMany (db : DB) (q : Query) : Nat × DB :=
  (countMatching db q,
   ⟨db.nextId, db.docs.filter (fun d => !q d), db.log ++ ["deleteMany"]⟩)

/-! ## The wrapper (src/index.ts) -/

/-- A post-mutation hook: an awaited callback that either completes or fails
with an error. -/
def Hook := StoredDoc → Except String Unit

/-- Lines 23-27: the three independently optional hooks. -/
structure Hooks where
  postCreateHook : Option Hook
  postUpdateHook : Option Hook
  postDeleteHook : Option Hook

/-- No hook configured. -/
def noHooks : Hooks := ⟨none, none, none⟩

/-- Lines 21-28: the per-collection configuration. -/
structure CollectionConfig where
  defaults : Option Doc
  hooks : Hooks

/-- The closure state a collection accessor captures: the collection name,
the defaults and the hooks. -/
structure Collection where
  name : String
  defaults : Option Doc
  hooks : Hooks

/-- Lines 30-39: binding a database handle, a name and a configuration
builds the accessor.  No driver call is issued: the database value is
returned untouched next to the pure closure data. -/
def createCollectionFactory (database : DB) (name : String)
    (config : CollectionConfig) : DB × Collection :=
  (database, ⟨name, config.defaults, config.hooks⟩)

/-- What a wrapper operation can throw: the locally raised creation error of
line 54, or a failure propagated out of a caller-supplied hook. -/
inductive Err where
  | creationError : String → Err
  | hookError : String → Err
  deriving DecidableEq

/-- The message of the creation error thrown on line 54. -/
def creationErrorMessage : String := "Fa`iled to create new document"

/-- An operation outcome: the value returned (or the error thrown), the
database state afterwards, and the hook invocations made, in order. -/
structure OpResult (α : Type) where
  res : Except Err α
  db : DB
  hookCalls : List StoredDoc

/-- Line 52: `result.ops && result.result.ok ? result.ops[0] : undefined`.
An array is always truthy, so the conjunction only rules out an absent
`ops`; indexing an empty array still yields `undefined`. -/
def newDocumentOf (result : InsertOneResult) : Option StoredDoc :=
  match result.ops, result.ok with
  | some l, true => l.head?
  | _, _ => none

/-- Lines 52-60 of createOne, after the insertOne round-trip: extract the
new document, throw the creation error when there is none, otherwise run the
configured post-create hook (awaited) and return the document — or rethrow
the hook's failure. -/
def createOneGiven (hooks : Hooks) (result : InsertOneResult) (db1 : DB) :
    OpResult StoredDoc :=
  match newDocumentOf result with
  | none => ⟨Except.error (Err.creationError creationErrorMessage), db1, []⟩
  | some nd =>
    match hooks.postCreateHook with
    | some h =>
      match h nd with
      | Except.ok _ => ⟨Except.ok nd, db1, [nd]⟩
      | Except.error e => ⟨Except.error (Err.hookError e), db1, [nd]⟩
    | none => ⟨Except.ok nd, db1, []⟩

/-- Lines 40-61: merge the defaults into the input, insert, then hand the
driver response to the post-insert logic. -/
def createOne (c : Collection) (db : DB) (input : Doc) : OpResult StoredDoc :=
  let inputWithDefaults := mergeDefaults c.defaults input
  let r := dbInsertOne db inputWithDefaults
  createOneGiven c.hooks r.1 r.2

/-- Lines 62-74: merge the defaults into every input, bulk-insert, and
return the assigned identifiers in insertion order.  No hook is consulted
anywhere on this path. -/
def createMany (c : Collection) (db : DB) (inputs : List Doc) :
    OpResult (List Nat) :=
  let inputsWithDefaults :=
    match c.defaults with
    | some d => inputs.map (fun i => spread d i)
    | none => inputs
  let r := dbInsertMany db inputsWithDefaults
  ⟨Except.ok r.1, r.2, []⟩

/-- Lines 75-91: findOneAndUpdate with a $set of the partial update, then
the post-update hook on the returned value — only when a document was
found. -/
def updateOne (c : Collection) (db : DB) (q : Query) (u : Doc) :
    OpResult (Option StoredDoc) :=
  let r := dbFindOneAndUpdate db q u
  match r.1 with
  | some ud =>
    match c.hooks.postUpdateHook with
    | some h =>
      match h ud with
      | Except.ok _ => ⟨Except.ok (some ud), r.2, [ud]⟩
      | Except.error e => ⟨Except.error (Err.hookError e), r.2, [ud]⟩
    | none => ⟨Except.ok (some ud), r.2, []⟩
  | none => ⟨Except.ok none, r.2, []⟩

/-- Lines 92-101: findOneAndDelete, then the post-delete hook on the deleted
document — only when one was found. -/
def deleteOne (c : Collection) (db : DB) (q : Query) :
    OpResult (Option StoredDoc) :=
  let r := dbFindOneAndDelete db q
  match r.1 with
  | some dd =>
    match c.hooks.postDeleteHook with
    | some h =>
      match h dd with
      | Except.ok _ => ⟨Except.ok (some dd), r.2, [dd]⟩
      | Except.error e => ⟨Except.error (Err.hookError e), r.2, [dd]⟩
    | none => ⟨Except.ok (some dd), r.2, []⟩
  | none => ⟨Except.ok none, r.2, []⟩

/-- Line 105: `return result || null` — any falsy driver result is
normalized to the `null` sentinel (`none`); a document passes through. -/
def readOneGiven (result : FindRaw) : Option StoredDoc :=
  match result with
  | FindRaw.doc d => some d
  | _ => none

/-- Lines 102-105: findOne, then normalization of the raw result. -/
def readOne (_c : Collection) (db : DB) (q : Query) : Option StoredDoc × DB :=
  let r := dbFindOne db q
  (readOneGiven r.1, r.2)

/-- Lines 110-119: updateMany with a $set of the partial update; returns the
driver's matchedCount and consults no hook. -/
def updateMany (_c : Collection) (db : DB) (q : Query) (u : Doc) : OpResult Nat :=
  let r := dbUpdateMany db q u
  ⟨Except.ok r.1, r.2, []⟩

/-- Lines 120-123: deleteMany; returns the driver's deletedCount and
consults no hook. -/
def deleteMany (_c : Collection) (db : DB) (q : Query) : OpResult Nat :=
  let r := dbDeleteMany db q
  ⟨Except.ok r.1, r.2, []⟩

/-! ## Lemmas about documents and the spread merge -/

theorem getKey_cons (p : String × Value) (t : Doc) (k : String) :
    getKey (p :: t) k = if p.1 == k then some p.2 else getKey t k := by
  by_cases hp : (p.1 == k) = true
  · simp [getKey, List.find?_cons_of_pos, hp]
  · simp [getKey, List.find?_cons_of_neg, hp]

theorem hasKey_cons (p : String × Value) (t : Doc) (k : String) :
    hasKey (p :: t) k = (p.1 == k || hasKey t k) := by
  simp [hasKey]

theorem setKey_nil (k : String) (v : Value) : setKey [] k v = [(k, v)] := rfl

theorem setKey_cons (p : String × Value) (t : Doc) (k : String) (v : Value) :
    setKey (p :: t) k v = if p.1 == k then (k, v) :: t else p :: setKey t k v :=
  rfl

theorem hasKey_eq_true_iff (d : Doc) (k : String) :
    hasKey d k = true ↔ k ∈ d.map Prod.fst := by
  unfold hasKey
  rw [List.any_eq_true]
  constructor
  · rintro ⟨x, hx, hxk⟩
    exact List.mem_map.mpr ⟨x, hx, beq_iff_eq.mp hxk⟩
  · intro hmem
    rcases List.mem_map.mp hmem with ⟨x, hx, hxe⟩
    exact ⟨x, hx, beq_iff_eq.mpr hxe⟩

theorem hasKey_of_getKey_some (d : Doc) (k : String) (v : Value)
    (h : getKey d k = some v) : hasKey d k = true := by
  simp only [getKey, Option.map_eq_some'] at h
  rcases h with ⟨x, hx, _⟩
  have hmem := List.mem_of_find?_eq_some hx
  have hpred := List.find?_some hx
  simp only [hasKey, List.any_eq_true]
  exact ⟨x, hmem, hpred⟩

theorem getKey_setKey_self (d : Doc) (k : String) (v : Value) :
    getKey (setKey d k v) k = some v := by
  induction d with
  | nil => rw [setKey_nil, getKey_cons]; simp
  | cons p t ih =>
    rw [setKey_cons]
    by_cases hp : (p.1 == k) = true
    · rw [if_pos hp, getKey_cons]; simp
    · rw [if_neg hp, getKey_cons, if_neg hp]; exact ih

theorem getKey_setKey_ne (d : Doc) (k k' : String) (v : Value)
    (h : k' ≠ k) : getKey (setKey d k v) k' = getKey d k' := by
  have hkk : (k == k') = false := beq_eq_false_iff_ne.mpr (Ne.symm h)
  induction d with
  | nil =>
    rw [setKey_nil, getKey_cons]
    simp [hkk, getKey]
  | cons p t ih =>
    rw [setKey_cons]
    by_cases hp : (p.1 == k) = true
    · have hpk : p.1 = k := beq_iff_eq.mp hp
      rw [if_pos hp, getKey_cons, getKey_cons, hpk]
      simp [hkk]
    · rw [if_neg hp, getKey_cons, getKey_cons]
      by_cases hpk' : (p.1 == k') = true
      · rw [if_pos hpk', if_pos hpk']
      · rw [if_neg hpk', if_neg hpk']; exact ih

theorem getKey_spread (a b : Doc) (hb : keysNodup b) (k : String) :
    getKey (spread a b) k = if hasKey b k then getKey b k else getKey a k := by
  induction b generalizing a with
  | nil =>
    show getKey a k = if hasKey [] k then getKey [] k else getKey a k
    rfl
  | cons p t ih =>
    have hcons := List.nodup_cons.mp hb
    have hnotin : p.1 ∉ t.map Prod.fst := hcons.1
    have hnd : keysNodup t := hcons.2
    have hstep : spread a (p :: t) = spread (setKey a p.1 p.2) t := rfl
    rw [hstep, ih (setKey a p.1 p.2) hnd, hasKey_cons, getKey_cons]
    by_cases ht : hasKey t k = true
    · have hk : (p.1 == k) = false := by
        have hkmem : k ∈ t.map Prod.fst := (hasKey_eq_true_iff t k).mp ht
        rw [beq_eq_false_iff_ne]
        intro hc
        exact hnotin (by rw [hc]; exact hkmem)
      simp [ht, hk]
    · by_cases hpk : (p.1 == k) = true
      · have hpk' : p.1 = k := beq_iff_eq.mp hpk
        have h1 : getKey (setKey a p.1 p.2) k = some p.2 := by
          rw [hpk']; exact getKey_setKey_self a k p.2
        simp [ht, hpk, h1]
      · have hne : k ≠ p.1 := by
          intro hc
          exact hpk (beq_iff_eq.mpr hc.symm)
        rw [getKey_setKey_ne a p.1 k p.2 hne]
        simp [ht, hpk]

/-! ## Helper lemmas about the wrapper operations -/

theorem createOneGiven_db (hooks : Hooks) (r : InsertOneResult) (db1 : DB) :
    (createOneGiven hooks r db1).db = db1 := by
  simp only [createOneGiven]
  split
  · rfl
  · split
    · split <;> rfl
    · rfl

theorem updateOne_db (c : Collection) (db : DB) (q : Query) (u : Doc) :
    (updateOne c db q u).db = (dbFindOneAndUpdate db q u).2 := by
  simp only [updateOne]
  split
  · split
    · split <;> rfl
    · rfl
  · rfl

theorem deleteOne_db (c : Collection) (db : DB) (q : Query) :
    (deleteOne c db q).db = (dbFindOneAndDelete db q).2 := by
  simp only [deleteOne]
  split
  · split
    · split <;> rfl
    · rfl
  · rfl

/-! ## Concrete fixtures (the README scenario) -/

def usersDefaults : Doc := [("isAdmin", Value.vbool false)]

def usersCollection : Collection := ⟨"test-users", some usersDefaults, noHooks⟩

def plainCollection : Collection := ⟨"test-users", none, noHooks⟩

def emptyDB : DB := ⟨0, [], []⟩

def yodaFields : Doc := [("name", Value.vstr "Yoda"), ("isAdmin", Value.vbool false)]

def yodaStored : StoredDoc := ⟨0, yodaFields⟩

def yodaDB : DB := ⟨1, [yodaStored], []⟩

def yodaQuery : Query := eqQuery [("name", Value.vstr "Yoda")]

def lukeQuery : Query := eqQuery [("name", Value.vstr "Luke")]

def adminTrue : Doc := [("isAdmin", Value.vbool true)]

deriving instance DecidableEq for Except

/-! ## The claims -/

/-- C1: the claim says updateOne returns the matched document in its
post-update state.  The code calls findOneAndUpdate with passthrough
options, so under the driver's default returnOriginal behaviour the value
handed back — and returned to the caller and to the hook — is the
pre-update document, even though the stored document does get the update
applied: on the README's own scenario the returned document still carries
isAdmin = false while the database holds isAdmin = true. -/
theorem updateOne_returns_pre_image_on_yoda :
    (updateOne plainCollection yodaDB yodaQuery adminTrue).res
      = Except.ok (some ⟨0, [("name", Value.vstr "Yoda"),
          ("isAdmin", Value.vbool false)]⟩)
    ∧ (updateOne plainCollection yodaDB yodaQuery adminTrue).db.docs
      = [⟨0, [("name", Value.vstr "Yoda"), ("isAdmin", Value.vbool true)]⟩] := by
  exact ⟨by decide, by decide⟩

/-- C2: the document written by createOne — and each element written by
createMany — equals a shallow copy of the configured defaults overlaid with
every key present in the input: a key present in the input takes the
input's value, a key absent from the input takes its default value, and
with no defaults configured the input passes through unchanged. -/
theorem createOne_createMany_write_defaults_overlay
    (c : Collection) (defs input : Doc) (db db2 : DB) (inputs : List Doc)
    (k kAbsent : String)
    (hdef : c.defaults = some defs)
    (hnd : keysNodup input)
    (hk : hasKey input k = true)
    (hkAbsent : hasKey input kAbsent = false) :
    (createOne c db input).db.docs
        = db.docs ++ [⟨db.nextId, mergeDefaults c.defaults input⟩]
      ∧ getKey (mergeDefaults c.defaults input) k = getKey input k
      ∧ getKey (mergeDefaults c.defaults input) kAbsent = getKey defs kAbsent
      ∧ mergeDefaults none input = input
      ∧ (createMany c db2 inputs).db.docs
        = db2.docs
            ++ assignIds db2.nextId
                (inputs.map (fun i => mergeDefaults c.defaults i)) := by
  refine ⟨?_, ?_, ?_, rfl, ?_⟩
  · have h1 : (createOne c db input).db
        = (dbInsertOne db (mergeDefaults c.defaults input)).2 := by
      unfold createOne
      exact createOneGiven_db c.hooks _ _
    rw [h1]
    rfl
  · rw [hdef]
    show getKey (spread defs input) k = getKey input k
    rw [getKey_spread defs input hnd k]
    simp [hk]
  · rw [hdef]
    show getKey (spread defs input) kAbsent = getKey defs kAbsent
    rw [getKey_spread defs input hnd kAbsent]
    simp [hkAbsent]
  · simp only [createMany, hdef, dbInsertMany, mergeDefaults]

/-- Witness for C2 at the README scenario: a created user keeps the default
isAdmin = false when the input omits it. -/
theorem createOne_createMany_write_defaults_overlay_witness :
    getKey (mergeDefaults usersCollection.defaults [("name", Value.vstr "Yoda")])
        "isAdmin" = some (Value.vbool false) :=
  (createOne_createMany_write_defaults_overlay usersCollection usersDefaults
    [("name", Value.vstr "Yoda")] emptyDB emptyDB [] "name" "isAdmin"
    rfl (by decide) (by decide) (by decide)).2.2.1

/-- C7: updateMany and deleteMany return the driver's count of documents
matched by the query — for updateMany the matched count, not the modified
count — and neither operation invokes any hook. -/
theorem updateMany_deleteMany_return_matched_count
    (c : Collection) (db db2 : DB) (q q2 : Query) (u : Doc) :
    (updateMany c db q u).res = Except.ok (countMatching db q)
    ∧ (updateMany c db q u).hookCalls = []
    ∧ (deleteMany c db2 q2).res = Except.ok (countMatching db2 q2)
    ∧ (deleteMany c db2 q2).hookCalls = [] :=
  ⟨rfl, rfl, rfl, rfl⟩

/-- C8: building a collection accessor performs no database operation: the
database state (documents, identifier counter and command log alike) is
returned untouched, and the accessor closure is a pure function of the
name, defaults and hooks, independent of the database value. -/
theorem createCollectionFactory_touches_no_database
    (db db2 : DB) (nm : String) (config : CollectionConfig) :
    (createCollectionFactory db nm config).1 = db
    ∧ (createCollectionFactory db nm config).2
        = (createCollectionFactory db2 nm config).2
    ∧ (createCollectionFactory db nm config).2
        = ⟨nm, config.defaults, config.hooks⟩ :=
  ⟨rfl, rfl, rfl⟩

/-- A hook that always succeeds. -/
def okHook : Hook := fun _ => Except.ok ()

/-- A hook that always fails with the message boom. -/
def boomHook : Hook := fun _ => Except.error "boom"

/-- C3: a successful createOne invokes the configured post-create hook
exactly once, with an argument equal to the document createOne itself
returns, before returning; createMany makes no hook invocation at all, for
any configured hooks and any list of inputs. -/
theorem createOne_invokes_hook_once_createMany_never
    (c : Collection) (db db2 : DB) (input : Doc) (inputs : List Doc) (h : Hook)
    (hh : c.hooks.postCreateHook = some h)
    (hok : h ⟨db.nextId, mergeDefaults c.defaults input⟩ = Except.ok ()) :
    (createOne c db input).hookCalls
        = [⟨db.nextId, mergeDefaults c.defaults input⟩]
    ∧ (createOne c db input).res
        = Except.ok ⟨db.nextId, mergeDefaults c.defaults input⟩
    ∧ (createMany c db2 inputs).hookCalls = [] := by
  refine ⟨?_, ?_, rfl⟩ <;>
    simp [createOne, createOneGiven, dbInsertOne, newDocumentOf, hh, hok]

/-- Witness for C3: with a succeeding post-create hook configured, creating
Yoda calls the hook once, on the created document. -/
theorem createOne_invokes_hook_once_createMany_never_witness :
    (createOne ⟨"test-users", some usersDefaults, ⟨some okHook, none, none⟩⟩
        emptyDB [("name", Value.vstr "Yoda")]).hookCalls
      = [⟨0, [("isAdmin", Value.vbool false), ("name", Value.vstr "Yoda")]⟩] :=
  (createOne_invokes_hook_once_createMany_never
    ⟨"test-users", some usersDefaults, ⟨some okHook, none, none⟩⟩
    emptyDB emptyDB [("name", Value.vstr "Yoda")] [] okHook rfl rfl).1

/-- C4: when the database write of a single-document mutation succeeds but
the configured hook then fails, the operation reports the hook's failure to
the caller while the database state is exactly the one the same call leaves
behind with no hook configured — the committed write, with no rollback. -/
theorem hook_failure_fails_call_after_commit
    (nm : String) (defaults : Option Doc) (hC hU hD : Hook) (e1 e2 e3 : String)
    (db1 db2 db3 : DB) (input u : Doc) (q2 q3 : Query) (d2 d3 : StoredDoc)
    (hfc : hC ⟨db1.nextId, mergeDefaults defaults input⟩ = Except.error e1)
    (hm2 : db2.docs.find? q2 = some d2)
    (hfu : hU d2 = Except.error e2)
    (hm3 : db3.docs.find? q3 = some d3)
    (hfd : hD d3 = Except.error e3) :
    ((createOne ⟨nm, defaults, ⟨some hC, none, none⟩⟩ db1 input).res
        = Except.error (Err.hookError e1)
      ∧ (createOne ⟨nm, defaults, ⟨some hC, none, none⟩⟩ db1 input).db
        = (createOne ⟨nm, defaults, noHooks⟩ db1 input).db
      ∧ (createOne ⟨nm, defaults, noHooks⟩ db1 input).db.docs
        = db1.docs ++ [⟨db1.nextId, mergeDefaults defaults input⟩])
    ∧ ((updateOne ⟨nm, defaults, ⟨none, some hU, none⟩⟩ db2 q2 u).res
        = Except.error (Err.hookError e2)
      ∧ (updateOne ⟨nm, defaults, ⟨none, some hU, none⟩⟩ db2 q2 u).db
        = (updateOne ⟨nm, defaults, noHooks⟩ db2 q2 u).db
      ∧ (updateOne ⟨nm, defaults, noHooks⟩ db2 q2 u).db.docs
        = updateFirst db2.docs q2 u)
    ∧ ((deleteOne ⟨nm, defaults, ⟨none, none, some hD⟩⟩ db3 q3).res
        = Except.error (Err.hookError e3)
      ∧ (deleteOne ⟨nm, defaults, ⟨none, none, some hD⟩⟩ db3 q3).db
        = (deleteOne ⟨nm, defaults, noHooks⟩ db3 q3).db
      ∧ (deleteOne ⟨nm, defaults, noHooks⟩ db3 q3).db.docs
        = removeFirst db3.docs q3) := by
  refine ⟨⟨?_, ?_, ?_⟩, ⟨?_, ?_, ?_⟩, ⟨?_, ?_, ?_⟩⟩
  · simp [createOne, createOneGiven, dbInsertOne, newDocumentOf, hfc]
  · rw [show (createOne ⟨nm, defaults, ⟨some hC, none, none⟩⟩ db1 input).db
        = (dbInsertOne db1 (mergeDefaults defaults input)).2 from
      createOneGiven_db _ _ _]
    rw [show (createOne ⟨nm, defaults, noHooks⟩ db1 input).db
        = (dbInsertOne db1 (mergeDefaults defaults input)).2 from
      createOneGiven_db _ _ _]
  · rw [show (createOne ⟨nm, defaults, noHooks⟩ db1 input).db
        = (dbInsertOne db1 (mergeDefaults defaults input)).2 from
      createOneGiven_db _ _ _]
    rfl
  · simp [updateOne, dbFindOneAndUpdate, hm2, hfu]
  · rw [updateOne_db, updateOne_db]
  · rw [updateOne_db]
    simp [dbFindOneAndUpdate, hm2]
  · simp [deleteOne, dbFindOneAndDelete, hm3, hfd]
  · rw [deleteOne_db, deleteOne_db]
  · rw [deleteOne_db]
    simp [dbFindOneAndDelete, hm3]

/-- Witness for C4: a failing post-update hook makes updateOne report the
hook error even though the match succeeded and the update was written. -/
theorem hook_failure_fails_call_after_commit_witness :
    (updateOne ⟨"test-users", none, ⟨none, some boomHook, none⟩⟩
        yodaDB yodaQuery adminTrue).res
      = Except.error (Err.hookError "boom") :=
  (hook_failure_fails_call_after_commit "test-users" none
    boomHook boomHook boomHook "boom" "boom" "boom"
    emptyDB yodaDB yodaDB [("name", Value.vstr "Luke")] adminTrue
    yodaQuery yodaQuery yodaStored yodaStored
    rfl (by decide) rfl (by decide) rfl).2.1.1

/-- C5: when no document matches the query, readOne, updateOne and
deleteOne all return the null sentinel rather than throwing, and updateOne
and deleteOne invoke no hook. -/
theorem no_match_returns_null_without_hook
    (c : Collection) (db : DB) (q : Query) (u : Doc)
    (hnone : ∀ d ∈ db.docs, q d = false) :
    (readOne c db q).1 = none
    ∧ (updateOne c db q u).res = Except.ok none
    ∧ (updateOne c db q u).hookCalls = []
    ∧ (deleteOne c db q).res = Except.ok none
    ∧ (deleteOne c db q).hookCalls = [] := by
  have hfind : db.docs.find? q = none := by
    rw [List.find?_eq_none]
    intro x hx
    simp [hnone x hx]
  refine ⟨?_, ?_, ?_, ?_, ?_⟩ <;>
    simp [readOne, dbFindOne, updateOne, dbFindOneAndUpdate, deleteOne,
      dbFindOneAndDelete, readOneGiven, hfind]

/-- Witness for C5: querying for Luke in a database holding only Yoda gives
the null sentinel from updateOne. -/
theorem no_match_returns_null_without_hook_witness :
    (updateOne plainCollection yodaDB lukeQuery adminTrue).res
      = Except.ok none :=
  (no_match_returns_null_without_hook plainCollection yodaDB lukeQuery
    adminTrue (by decide)).2.1

/-- C6: createOne throws the creation error exactly when the insert
response reports no created document (absent ops, unacknowledged result or
empty ops array); otherwise — hooks aside — it returns the reported
document, which composed with the driver carries the database-assigned
identifier. -/
theorem createOne_creation_error_iff_no_reported_document
    (hooks : Hooks) (r1 r2 : InsertOneResult) (dbA dbB : DB)
    (c : Collection) (db : DB) (input : Doc) (d : StoredDoc)
    (hno : c.hooks.postCreateHook = none)
    (hd : newDocumentOf r2 = some d) :
    ((createOneGiven hooks r1 dbA).res
        = Except.error (Err.creationError creationErrorMessage)
      ↔ newDocumentOf r1 = none)
    ∧ (createOneGiven c.hooks r2 dbB).res = Except.ok d
    ∧ (createOne c db input).res
        = Except.ok ⟨db.nextId, mergeDefaults c.defaults input⟩ := by
  refine ⟨⟨?_, ?_⟩, ?_, ?_⟩
  · intro hres
    cases hcase : newDocumentOf r1 with
    | none => rfl
    | some nd =>
      exfalso
      unfold createOneGiven at hres
      rw [hcase] at hres
      cases hh : hooks.postCreateHook with
      | none =>
        rw [hh] at hres
        simp at hres
      | some h =>
        rw [hh] at hres
        cases he : h nd with
        | ok v => simp [he] at hres
        | error e => simp [he] at hres
  · intro hnone
    unfold createOneGiven
    rw [hnone]
  · unfold createOneGiven
    rw [hd, hno]
  · unfold createOne createOneGiven
    simp [dbInsertOne, newDocumentOf, hno]

/-- Witness for C6: an acknowledged insert whose ops array carries a
document makes createOne return it; composed with the driver, creating
Vader in an empty collection returns the document with identifier 0. -/
theorem createOne_creation_error_iff_no_reported_document_witness :
    (createOne plainCollection emptyDB [("name", Value.vstr "Vader")]).res
      = Except.ok ⟨0, [("name", Value.vstr "Vader")]⟩ :=
  (createOne_creation_error_iff_no_reported_document noHooks
    ⟨some [], true⟩ ⟨some [yodaStored], true⟩ emptyDB emptyDB
    plainCollection emptyDB [("name", Value.vstr "Vader")] yodaStored
    rfl rfl).2.2

/-- C9: readOne normalizes every falsy raw find result — null or undefined
alike — to the single null sentinel, a document passes through unchanged,
and composed with the driver the public result is either null or a
document the filter found. -/
theorem readOne_normalizes_falsy_to_null
    (r : FindRaw) (c : Collection) (db : DB) (q : Query) (dd : StoredDoc)
    (hfalsy : jsTruthy r = false) :
    readOneGiven r = none
    ∧ readOneGiven (FindRaw.doc dd) = some dd
    ∧ ((readOne c db q).1 = none
        ∨ ∃ d, (readOne c db q).1 = some d ∧ db.docs.find? q = some d) := by
  refine ⟨?_, rfl, ?_⟩
  · cases r with
    | undef => rfl
    | nullv => rfl
    | doc d => simp [jsTruthy] at hfalsy
  · cases hfind : db.docs.find? q with
    | none =>
      left
      simp [readOne, dbFindOne, hfind, readOneGiven]
    | some d =>
      right
      exact ⟨d, by simp [readOne, dbFindOne, hfind, readOneGiven], rfl⟩

/-- Witness for C9: the undefined raw result is normalized to null. -/
theorem readOne_normalizes_falsy_to_null_witness :
    readOneGiven FindRaw.undef = none :=
  (readOne_normalizes_falsy_to_null FindRaw.undef plainCollection yodaDB
    yodaQuery yodaStored rfl).1

/-- C10: in the default-merge of createOne and createMany, an input key
explicitly set to undefined still overrides the configured default for that
key — the created document carries undefined there, not the default
value. -/
theorem created_document_keeps_explicit_undefined
    (c : Collection) (defs input : Doc) (db : DB) (k : String) (v : Value)
    (hdef : c.defaults = some defs)
    (hnd : keysNodup input)
    (hin : getKey input k = some Value.undef)
    (_hd : getKey defs k = some v)
    (hv : v ≠ Value.undef) :
    getKey (mergeDefaults c.defaults input) k = some Value.undef
    ∧ getKey (mergeDefaults c.defaults input) k ≠ some v
    ∧ (createOne c db input).db.docs
        = db.docs ++ [⟨db.nextId, mergeDefaults c.defaults input⟩]
    ∧ (createMany c db [input]).db.docs
        = db.docs ++ [⟨db.nextId, mergeDefaults c.defaults input⟩] := by
  have hk : hasKey input k = true := hasKey_of_getKey_some input k Value.undef hin
  have h1 : getKey (mergeDefaults c.defaults input) k = some Value.undef := by
    rw [hdef]
    show getKey (spread defs input) k = some Value.undef
    rw [getKey_spread defs input hnd k]
    simp [hk, hin]
  refine ⟨h1, ?_, ?_, ?_⟩
  · rw [h1]
    intro hc
    exact hv (Option.some_inj.mp hc).symm
  · have h2 : (createOne c db input).db
        = (dbInsertOne db (mergeDefaults c.defaults input)).2 := by
      unfold createOne
      exact createOneGiven_db c.hooks _ _
    rw [h2]
    rfl
  · simp only [createMany, hdef, mergeDefaults]
    rfl

/-- Witness for C10: an input explicitly carrying isAdmin = undefined beats
the default isAdmin = false. -/
theorem created_document_keeps_explicit_undefined_witness :
    getKey (mergeDefaults usersCollection.defaults [("isAdmin", Value.undef)])
        "isAdmin" = some Value.undef :=
  (created_document_keeps_explicit_undefined usersCollection usersDefaults
    [("isAdmin", Value.undef)] emptyDB "isAdmin" (Value.vbool false)
    rfl (by decide) rfl rfl (by decide)).1

end TinyMongo
